import Mathlib

/-!
Verification of the safe-vk routing/extraction pipeline.

The `parse_response!` macro of `src/safe-vk/src/lib.rs` is embedded directly
(`Json`, `Json.get`, `parseResponseOption`, `parseResponse`).  The filter,
router and polling-loop components are not present in the source snapshot,
so they are modelled from the specification text; each such definition says
so in its doc comment.
-/

namespace SafeVk

/-- A JSON value, as in serde_json: null, boolean, number, string, array
or object (a list of key/value fields). The exact numeric representation is
irrelevant to the claims, so numbers carry an `Int`. -/
inductive Json where
  | null : Json
  | bool (b : Bool) : Json
  | num (n : Int) : Json
  | str (s : String) : Json
  | arr (xs : List Json) : Json
  | obj (fields : List (String × Json)) : Json

/-- serde_json `Value::get(key)`: on an object, look the key up; on any
other value, `None`. -/
def Json.get (j : Json) (key : String) : Option Json :=
  match j with
  | .obj fields => fields.lookup key
  | _ => none

/-- serde_json `Value::is_number`. -/
def Json.isNumber : Json → Bool
  | .num _ => true
  | _ => false

/-- serde_json `Value::is_string`. -/
def Json.isString : Json → Bool
  | .str _ => true
  | _ => false

/-- A target shape `T` of the macro is modelled by its serde deserializer:
a function from a JSON value to either a decoded value of the shape or an
error message. -/
def Decoder (α : Type) : Type := Json → Except String α

/-- The `Option<T>` arm of `parse_response!` (lib.rs lines 114-130):
look up the "response" key; if absent, `Ok(None)`; if present, try to
deserialize it as `T`; on success `Ok(Some v)`; on failure, `Ok(None)` when
the response value is a JSON number or string, otherwise the error
"Unexpected response format".  The trailing `map_err(custom)` re-wraps the
error message and is modelled as the identity on the message. -/
def parseResponseOption {α : Type} (d : Decoder α) (value : Json) :
    Except String (Option α) :=
  match value.get "response" with
  | some response =>
    match d response with
    | .ok parsed => .ok (some parsed)
    | .error _ =>
      if response.isNumber || response.isString then .ok none
      else .error "Unexpected response format"
  | none => .ok none

/-- The non-`Option` arm of `parse_response!` (lib.rs lines 132-139):
look up the "response" key; if present, deserialize it as `T`; if absent,
fall back to `serde_json::from_value` on the whole payload, i.e. deserialize
the entire value as `T`. -/
def parseResponse {α : Type} (d : Decoder α) (value : Json) : Except String α :=
  match value.get "response" with
  | some response => d response
  | none => d value

/-- Deserializer of `serde_json::Value` itself: accepts any JSON value.
Used as a concrete target shape in counterexamples and witnesses. -/
def decodeValue : Decoder Json := fun j => .ok j

/-- Deserializer of a `String` target shape: accepts exactly JSON strings. -/
def decodeString : Decoder String := fun j =>
  match j with
  | .str s => .ok s
  | _ => .error "invalid type: expected a string"

/-- Deserializer of an integer target shape: accepts exactly JSON numbers. -/
def decodeInt : Decoder Int := fun j =>
  match j with
  | .num n => .ok n
  | _ => .error "invalid type: expected an integer"

/-- Modelled from the spec: the two command-matching policies of the
`Filter` type (the filter source file is absent from the snapshot). -/
inductive Filter where
  | strict : Filter
  | flexible : Filter
deriving DecidableEq

/-- Modelled from the spec: `Strict` matching — the command text must equal
the pattern exactly (byte-for-byte, including case). -/
def strictMatches (p c : String) : Bool := p == c

/-- Modelled from the spec: `Flexible` matching on character lists — the
command text matches iff it starts with the pattern followed by a token
boundary, i.e. end-of-string or a whitespace character. -/
def flexibleMatchesL : List Char → List Char → Bool
  | [], [] => true
  | [], b :: _ => b.isWhitespace
  | _ :: _, [] => false
  | a :: p, b :: c => a == b && flexibleMatchesL p c

/-- Modelled from the spec: `Flexible` matching on strings. -/
def flexibleMatches (p c : String) : Bool := flexibleMatchesL p.data c.data

/-- Modelled from the spec: dispatch a pattern/command pair to the matching
policy of the filter. -/
def Filter.matches : Filter → String → String → Bool
  | .strict, p, c => strictMatches p c
  | .flexible, p, c => flexibleMatches p c

/-- Modelled from the spec: a `Route` binds one command pattern and one
`Filter` to one type-erased handler, modelled by a numeric handler id. -/
structure Route where
  pattern : String
  filter : Filter
  handler : Nat
deriving DecidableEq

/-- Modelled from the spec: whether the filter of a route accepts a command text. -/
def routeMatches (r : Route) (cmd : String) : Bool :=
  r.filter.matches r.pattern cmd

/-- Modelled from the spec: `resolve` scans the routes in registration order
and returns the first whose filter matches the command text of the update. -/
def resolve (routes : List Route) (cmd : String) : Option Route :=
  routes.find? (fun r => routeMatches r cmd)

/-- Modelled from the spec: the outcome of dispatching one update —
success, an extraction error, or a handler error. -/
inductive DispatchOutcome where
  | ok : DispatchOutcome
  | extractionError : DispatchOutcome
  | handlerError : DispatchOutcome
deriving DecidableEq

/-- Modelled from the spec: one result delivered by the backend
collaborator to the polling loop: a session descriptor, a batch of updates
(the offset advance it reports together with the dispatch outcome of each
update in the batch), a transient transport error, a session-expiry error,
or a fatal error. -/
inductive BackendResult where
  | sessionAcquired (offset : Nat) : BackendResult
  | batch (advance : Nat) (outcomes : List DispatchOutcome) : BackendResult
  | transient : BackendResult
  | expired : BackendResult
  | fatal : BackendResult
deriving DecidableEq

/-- Modelled from the spec: one input observed by the polling loop between
iterations: a backend result or the external shutdown signal. -/
inductive LoopInput where
  | backend (r : BackendResult) : LoopInput
  | shutdown : LoopInput
deriving DecidableEq

/-- Modelled from the spec: the polling-loop state machine states
`Uninitialized`, `Active`, `Degraded(backoff)` and terminal, each carrying
the current session offset (zero before a session exists; kept on clean
termination so a resume can continue from the same point). -/
inductive LoopState where
  | uninitialized : LoopState
  | active (offset : Nat) : LoopState
  | degraded (offset : Nat) (backoff : Nat) : LoopState
  | terminated (offset : Nat) : LoopState
deriving DecidableEq

/-- The session offset carried by a loop state. -/
def LoopState.offsetVal : LoopState → Nat
  | .uninitialized => 0
  | .active o => o
  | .degraded o _ => o
  | .terminated o => o

/-- Whether a loop state is terminal. -/
def isTerminal : LoopState → Bool
  | .terminated _ => true
  | _ => false

/-- Modelled from the spec: states in which the loop fetches batches of
updates (a session exists): `Active` and `Degraded`. -/
def canPoll : LoopState → Bool
  | .active _ => true
  | .degraded _ _ => true
  | _ => false

/-- Modelled from the spec: the inputs the spec calls fatal for a given
state: any session-acquisition failure while uninitialized, a backend-report
of a non-recoverable error, and a recoverable error whose retry would exceed
the configured backoff ceiling (surfaced as a fatal error). -/
def surfacesFatal (ceiling : Nat) : LoopState → LoopInput → Bool
  | .uninitialized, .backend (.sessionAcquired _) => false
  | .uninitialized, .backend _ => true
  | _, .backend .fatal => true
  | .degraded _ b, .backend .transient => decide (ceiling < b + 1)
  | .degraded _ b, .backend .expired => decide (ceiling < b + 1)
  | _, _ => false

/-- Modelled from the spec: one transition of the polling-loop state
machine, parameterized by the configured retry ceiling.
Uninitialized acquires a session (failure is fatal); Active advances the
offset by the reported amount on a successful batch and dispatches the
updates — dispatch errors are confined to the batch —, degrades on a
recoverable error and terminates on a fatal one; Degraded returns to Active
on a successful retry or re-acquired session, keeping the previous offset,
backs off further on repeated recoverable errors up to the ceiling, and
terminates past it; the shutdown signal terminates cleanly from any state,
keeping the offset; terminal states are absorbing. -/
def step (ceiling : Nat) : LoopState → LoopInput → LoopState
  | .terminated o, _ => .terminated o
  | s, .shutdown => .terminated s.offsetVal
  | .uninitialized, .backend (.sessionAcquired o) => .active o
  | .uninitialized, .backend _ => .terminated 0
  | .active o, .backend (.sessionAcquired _) => .active o
  | .active o, .backend (.batch adv _) => .active (o + adv)
  | .active o, .backend .transient => .degraded o 0
  | .active o, .backend .expired => .degraded o 0
  | .active o, .backend .fatal => .terminated o
  | .degraded o _, .backend (.sessionAcquired _) => .active o
  | .degraded o _, .backend (.batch adv _) => .active (o + adv)
  | .degraded o b, .backend .transient =>
      if b + 1 ≤ ceiling then .degraded o (b + 1) else .terminated o
  | .degraded o b, .backend .expired =>
      if b + 1 ≤ ceiling then .degraded o (b + 1) else .terminated o
  | .degraded o _, .backend .fatal => .terminated o

/-- Modelled from the spec: run the polling loop over a sequence of inputs. -/
def run (ceiling : Nat) (s : LoopState) (inputs : List LoopInput) : LoopState :=
  inputs.foldl (step ceiling) s

end SafeVk

namespace SafeVk

/-- Helper: characterization of `Flexible` matching — the command matches the
pattern exactly when it equals the pattern, or extends it with a whitespace
character followed by anything. -/
theorem flexibleMatchesL_iff (p c : List Char) :
    flexibleMatchesL p c = true ↔
      c = p ∨ ∃ w r, c = p ++ w :: r ∧ w.isWhitespace = true := by
  induction p generalizing c with
  | nil =>
    cases c with
    | nil => simp [flexibleMatchesL]
    | cons b t => simp [flexibleMatchesL]
  | cons a p ih =>
    cases c with
    | nil => simp [flexibleMatchesL]
    | cons b t =>
      simp only [flexibleMatchesL, Bool.and_eq_true, beq_iff_eq, ih, List.cons_append,
        List.cons.injEq]
      constructor
      · rintro ⟨rfl, ht | ⟨w, r, rfl, hw⟩⟩
        · exact Or.inl ⟨rfl, ht⟩
        · exact Or.inr ⟨w, r, ⟨rfl, rfl⟩, hw⟩
      · rintro (⟨rfl, rfl⟩ | ⟨w, r, ⟨rfl, rfl⟩, hw⟩)
        · exact ⟨rfl, Or.inl rfl⟩
        · exact ⟨rfl, Or.inr ⟨w, r, rfl, hw⟩⟩

/-- Helper: a single polling-loop transition never decreases the session
offset recorded in the state. -/
theorem step_offset_mono (c0 : Nat) (s : LoopState) (i : LoopInput) :
    s.offsetVal ≤ (step c0 s i).offsetVal := by
  rcases s with _ | o | ⟨o, b⟩ | o <;> rcases i with r | _
  all_goals try rcases r with o2 | ⟨adv, outs⟩ | _ | _ | _
  all_goals simp only [step]
  all_goals try split
  all_goals simp [LoopState.offsetVal]

/-- Claim C1: for every target shape and every payload with no "response"
key, extraction for the `Option` target returns `Ok(None)` — never an
error. -/
theorem parse_response_option_missing_key {α : Type} (d : Decoder α) (value : Json)
    (h : value.get "response" = none) :
    parseResponseOption d value = .ok none := by
  simp [parseResponseOption, h]

/-- Witness for C1 at the concrete payload with the single key "items". -/
theorem parse_response_option_missing_key_witness :
    (Json.obj [("items", Json.num 3)]).get "response" = none ∧
    parseResponseOption decodeInt (Json.obj [("items", Json.num 3)]) = .ok none :=
  ⟨rfl, parse_response_option_missing_key decodeInt _ rfl⟩

/-- Counterexample to C2: the payload with the single key "items" has no
"response" key, yet non-optional extraction for the `serde_json::Value`
target shape succeeds (the macro falls back to deserializing the whole
payload) instead of returning an error as the claim states. -/
theorem parse_response_missing_key_counterexample :
    (Json.obj [("items", Json.num 3)]).get "response" = none ∧
    parseResponse decodeValue (Json.obj [("items", Json.num 3)])
      = Except.ok (Json.obj [("items", Json.num 3)]) ∧
    (parseResponse decodeValue (Json.obj [("items", Json.num 3)])).isOk = true :=
  ⟨rfl, rfl, rfl⟩

/-- Claim C2 (amended): when the payload has no "response" key, the
non-`Option` arm falls back to deserializing the entire payload as the
target shape, so extraction returns an error exactly when the whole payload
itself fails to deserialize as the target shape. -/
theorem parse_response_missing_key_fallback {α : Type} (d : Decoder α) (value : Json)
    (h : value.get "response" = none) :
    parseResponse d value = d value := by
  simp [parseResponse, h]

/-- Witness for the amended C2 at the integer target shape: the fallback
deserializes the whole payload. -/
theorem parse_response_missing_key_fallback_witness :
    (Json.obj [("items", Json.num 3)]).get "response" = none ∧
    parseResponse decodeInt (Json.obj [("items", Json.num 3)])
      = decodeInt (Json.obj [("items", Json.num 3)]) :=
  ⟨rfl, parse_response_missing_key_fallback decodeInt _ rfl⟩

/-- Claim C3: when the "response" key is present, non-optional extraction is
exactly deserialization of the response value: it succeeds with the decoded
value precisely when the response value deserializes as the target shape,
and returns an extraction error when the shape does not match. -/
theorem parse_response_with_key {α : Type} (d : Decoder α) (value response : Json)
    (h : value.get "response" = some response) :
    parseResponse d value = d response := by
  simp [parseResponse, h]

/-- Witness for C3: with response value 7, the integer target decodes to 7
and the string target yields a type-mismatch error. -/
theorem parse_response_with_key_witness :
    (Json.obj [("response", Json.num 7)]).get "response" = some (Json.num 7) ∧
    parseResponse decodeInt (Json.obj [("response", Json.num 7)]) = Except.ok 7 ∧
    parseResponse decodeString (Json.obj [("response", Json.num 7)])
      = Except.error "invalid type: expected a string" :=
  ⟨rfl,
   (parse_response_with_key decodeInt (Json.obj [("response", Json.num 7)]) (Json.num 7) rfl).trans rfl,
   (parse_response_with_key decodeString (Json.obj [("response", Json.num 7)]) (Json.num 7) rfl).trans rfl⟩

/-- Claim C4: extraction for the `Option` target returns `Ok(Some v)` if and
only if the payload has a "response" key whose value deserializes as the
target shape to `v`; every result is `Ok(Some _)`, `Ok(None)` or an error,
so a handler never receives a partially decoded `Some` value. -/
theorem parse_response_option_some_iff {α : Type} (d : Decoder α) (value : Json) :
    (∀ v : α, parseResponseOption d value = .ok (some v) ↔
      ∃ response, value.get "response" = some response ∧ d response = .ok v) ∧
    ((∃ v, parseResponseOption d value = .ok (some v)) ∨
      parseResponseOption d value = .ok none ∨
      ∃ e, parseResponseOption d value = .error e) := by
  rcases hg : value.get "response" with _ | resp
  · constructor
    · intro v
      simp [parseResponseOption, hg]
    · right; left
      simp [parseResponseOption, hg]
  · cases hd : d resp with
    | ok p =>
      constructor
      · intro v
        simp [parseResponseOption, hg, hd]
      · left
        exact ⟨p, by simp [parseResponseOption, hg, hd]⟩
    | error e =>
      constructor
      · intro v
        by_cases hn : (resp.isNumber || resp.isString) = true
        · simp [parseResponseOption, hg, hd, hn]
        · simp [parseResponseOption, hg, hd, hn]
      · by_cases hn : (resp.isNumber || resp.isString) = true
        · right; left
          simp [parseResponseOption, hg, hd, hn]
        · right; right
          exact ⟨"Unexpected response format", by simp [parseResponseOption, hg, hd, hn]⟩

/-- Claim C5: when the "response" value is present but fails to deserialize
as the target shape, `Option` extraction yields `Ok(None)` if that value is
a JSON number or a JSON string, and the error "Unexpected response format"
for every other JSON shape. -/
theorem parse_response_option_bad_shape {α : Type} (d : Decoder α) (value response : Json)
    (e : String)
    (h : value.get "response" = some response) (hd : d response = .error e) :
    ((response.isNumber || response.isString) = true →
        parseResponseOption d value = .ok none) ∧
    ((response.isNumber || response.isString) = false →
        parseResponseOption d value = .error "Unexpected response format") := by
  constructor <;> intro hn <;> simp [parseResponseOption, h, hd, hn]

/-- Witness for C5: for the string target shape, a numeric response value
yields `Ok(None)` while an array response value yields the error. -/
theorem parse_response_option_bad_shape_witness :
    parseResponseOption decodeString (Json.obj [("response", Json.num 5)]) = Except.ok none ∧
    parseResponseOption decodeString (Json.obj [("response", Json.arr [])])
      = Except.error "Unexpected response format" :=
  ⟨(parse_response_option_bad_shape decodeString (Json.obj [("response", Json.num 5)])
      (Json.num 5) "invalid type: expected a string" rfl rfl).1 rfl,
   (parse_response_option_bad_shape decodeString (Json.obj [("response", Json.arr [])])
      (Json.arr []) "invalid type: expected a string" rfl rfl).2 rfl⟩

/-- Claim C6: the `Strict` filter matches exactly when the pattern and the
command text are equal, character for character and case-sensitively. -/
theorem strict_matches_iff (p c : String) : strictMatches p c = true ↔ p = c := by
  simp [strictMatches]

/-- Claim C7: the `Flexible` filter accepts "/cmd" and "/cmd foo" for the
pattern "/cmd", rejects "/cmdx" for "/cmd" and "/cat" for "/c"; in general
the command text matches exactly when it starts with the pattern followed by
end-of-string or a whitespace character, so partial-word matches are
rejected. -/
theorem flexible_matches_spec :
    flexibleMatches "/cmd" "/cmd" = true ∧
    flexibleMatches "/cmd" "/cmd foo" = true ∧
    flexibleMatches "/cmd" "/cmdx" = false ∧
    flexibleMatches "/c" "/cat" = false ∧
    ∀ p c : String, flexibleMatches p c = true ↔
      c.data = p.data ∨ ∃ w r, c.data = p.data ++ w :: r ∧ w.isWhitespace = true := by
  refine ⟨by decide, by decide, by decide, by decide, ?_⟩
  intro p c
  exact flexibleMatchesL_iff p.data c.data

/-- Counterexample to C8 as universally stated: in the router holding routes
with handlers 0, 1 and 2, all with pattern "/x" under `Strict`, the routes
with handlers 1 and 2 are registered in that order and both match the
command "/x", yet `resolve` returns the route with handler 0, not the route
with handler 1: the first registered match wins, not an arbitrary earlier
one of a matching pair. -/
theorem resolve_pair_counterexample :
    routeMatches ⟨"/x", Filter.strict, 1⟩ "/x" = true ∧
    routeMatches ⟨"/x", Filter.strict, 2⟩ "/x" = true ∧
    resolve [⟨"/x", Filter.strict, 0⟩, ⟨"/x", Filter.strict, 1⟩, ⟨"/x", Filter.strict, 2⟩] "/x"
      = some ⟨"/x", Filter.strict, 0⟩ ∧
    some (⟨"/x", Filter.strict, 0⟩ : Route) ≠ some ⟨"/x", Filter.strict, 1⟩ :=
  ⟨by decide, by decide, by decide, by decide⟩

/-- Claim C8 (amended): `resolve` scans the routes in registration order and
returns the first match: if route R1 matches and no route registered before
it matches, `resolve` returns R1, short-circuiting regardless of any later
matching routes (such as a later matching R2). -/
theorem resolve_first_match (rs : List Route) (R1 : Route) (post : List Route) (cmd : String)
    (h1 : routeMatches R1 cmd = true)
    (h0 : ∀ r ∈ rs, routeMatches r cmd = false) :
    resolve (rs ++ R1 :: post) cmd = some R1 := by
  induction rs with
  | nil => simp [resolve, h1]
  | cons r tl ih =>
    have hr : routeMatches r cmd = false := h0 r (List.mem_cons_self r tl)
    have ih2 := ih (fun x hx => h0 x (List.mem_cons_of_mem r hx))
    simpa [resolve, List.cons_append, hr] using ih2

/-- Witness for the amended C8: a non-matching route, then R1, then a later
route that also matches; `resolve` returns R1. -/
theorem resolve_first_match_witness :
    routeMatches ⟨"/x", Filter.strict, 1⟩ "/x" = true ∧
    (∀ r ∈ [(⟨"/a", Filter.strict, 0⟩ : Route)], routeMatches r "/x" = false) ∧
    resolve ([⟨"/a", Filter.strict, 0⟩] ++ ⟨"/x", Filter.strict, 1⟩ :: [⟨"/x", Filter.strict, 2⟩]) "/x"
      = some ⟨"/x", Filter.strict, 1⟩ :=
  ⟨by decide, by decide,
   resolve_first_match [⟨"/a", Filter.strict, 0⟩] ⟨"/x", Filter.strict, 1⟩
     [⟨"/x", Filter.strict, 2⟩] "/x" (by decide) (by decide)⟩

/-- Claim C9: after a sequence of successful batch dispatches, the session
offset equals the initial offset plus the sum of the advances the backend
reported for the batches; and along any input sequence whatsoever the
offset recorded in the loop state never decreases. -/
theorem offset_after_batches (c0 off : Nat) (batches : List (Nat × List DispatchOutcome)) :
    run c0 (LoopState.active off)
        (batches.map (fun b => LoopInput.backend (BackendResult.batch b.1 b.2)))
      = LoopState.active (off + (batches.map Prod.fst).sum) ∧
    ∀ (s : LoopState) (inputs : List LoopInput),
      s.offsetVal ≤ (run c0 s inputs).offsetVal := by
  constructor
  · induction batches generalizing off with
    | nil => simp [run]
    | cons b tl ih =>
      simp only [List.map_cons, run, List.foldl_cons]
      have hstep : step c0 (LoopState.active off) (LoopInput.backend (BackendResult.batch b.1 b.2))
          = LoopState.active (off + b.1) := rfl
      rw [hstep]
      have h2 := ih (off + b.1)
      simp only [run] at h2
      rw [h2]
      simp only [List.map_cons, List.sum_cons, LoopState.active.injEq]
      omega
  · intro s inputs
    induction inputs generalizing s with
    | nil => simp [run]
    | cons i tl ih =>
      calc s.offsetVal ≤ (step c0 s i).offsetVal := step_offset_mono c0 s i
        _ ≤ (run c0 (step c0 s i) tl).offsetVal := ih (step c0 s i)
        _ = (run c0 s (i :: tl)).offsetVal := rfl

/-- Claim C10: from any polling state (a batch is fetched only in the Active
or Degraded states), a step dispatching a batch whose outcomes include an
extraction error or a handler error leaves the loop running; and from any
non-terminal state, a step reaches a terminal state only on the explicit
shutdown signal or on an input the spec calls fatal (a backend fatal error,
a session-acquisition failure, or backoff exceeding the retry ceiling,
which is surfaced as a fatal error). -/
theorem dispatch_errors_confined (c0 adv : Nat) (outs : List DispatchOutcome)
    (s : LoopState)
    (hs : canPoll s = true)
    (herr : DispatchOutcome.extractionError ∈ outs ∨ DispatchOutcome.handlerError ∈ outs) :
    isTerminal (step c0 s (LoopInput.backend (BackendResult.batch adv outs))) = false ∧
    ∀ (s2 : LoopState) (i : LoopInput), isTerminal s2 = false →
      isTerminal (step c0 s2 i) = true →
      i = LoopInput.shutdown ∨ surfacesFatal c0 s2 i = true := by
  constructor
  · rcases s with _ | o | ⟨o, b⟩ | o <;> simp [canPoll] at hs <;> simp [step, isTerminal]
  · intro s2 i h2 hterm
    cases s2 with
    | terminated o => simp [isTerminal] at h2
    | uninitialized =>
      cases i with
      | shutdown => exact Or.inl rfl
      | backend r =>
        cases r with
        | sessionAcquired o2 => simp [step, isTerminal] at hterm
        | batch adv2 outs2 => exact Or.inr rfl
        | transient => exact Or.inr rfl
        | expired => exact Or.inr rfl
        | fatal => exact Or.inr rfl
    | active o =>
      cases i with
      | shutdown => exact Or.inl rfl
      | backend r =>
        cases r with
        | sessionAcquired o2 => simp [step, isTerminal] at hterm
        | batch adv2 outs2 => simp [step, isTerminal] at hterm
        | transient => simp [step, isTerminal] at hterm
        | expired => simp [step, isTerminal] at hterm
        | fatal => exact Or.inr rfl
    | degraded o b =>
      cases i with
      | shutdown => exact Or.inl rfl
      | backend r =>
        cases r with
        | sessionAcquired o2 => simp [step, isTerminal] at hterm
        | batch adv2 outs2 => simp [step, isTerminal] at hterm
        | transient =>
          simp only [step] at hterm
          split at hterm
          · simp [isTerminal] at hterm
          · refine Or.inr ?_
            simp only [surfacesFatal, decide_eq_true_eq]
            omega
        | expired =>
          simp only [step] at hterm
          split at hterm
          · simp [isTerminal] at hterm
          · refine Or.inr ?_
            simp only [surfacesFatal, decide_eq_true_eq]
            omega
        | fatal => exact Or.inr rfl

/-- Witness for C10: an Active state dispatching a batch containing both an
extraction error and a handler error stays non-terminal. -/
theorem dispatch_errors_confined_witness :
    canPoll (LoopState.active 7) = true ∧
    isTerminal (step 3 (LoopState.active 7)
      (LoopInput.backend (BackendResult.batch 2
        [DispatchOutcome.extractionError, DispatchOutcome.handlerError]))) = false :=
  ⟨rfl, (dispatch_errors_confined 3 2
    [DispatchOutcome.extractionError, DispatchOutcome.handlerError]
    (LoopState.active 7) rfl (Or.inl (by decide))).1⟩

end SafeVk
